import Mathlib

/-!
Shallow embedding of `circquantico.py` (interactive quantum-circuit lab).

The repository's own logic is: a pure result interpreter
(`interpret_results`), a session state machine over a Streamlit session
(circuit, cached counts, cached statevector), and two thin wrappers around
an external simulation backend.  Python dictionaries of measurement counts
are embedded as association lists `List (String × Nat)` (first binding
wins, as `dict.get` does on the unique keys the backend produces), and the
probability arithmetic is exact rational arithmetic.
-/

/-- A measurement-count dictionary: bitstring → frequency. -/
abbrev Counts := List (String × Nat)

/-- Python `counts.get(key, 0)`. -/
def dictGet (counts : Counts) (key : String) : Nat :=
  ((counts.find? (fun kv => kv.1 == key)).map Prod.snd).getD 0

/-- Python `sum(counts.values())` (local `total_shots` in `interpret_results`). -/
def total_shots (counts : Counts) : Nat :=
  (counts.map Prod.snd).sum

/-- Message returned for the balanced one-qubit distribution (superposition). -/
def superposition_msg : String :=
  "### Fenômeno Observado: Superposição! 🌌\n* **O que aconteceu?** Você aplicou uma porta Hadamard (`H`), colocando o qubit em uma combinação de 0 e 1 ao mesmo tempo.\n* **O que o gráfico mostra?** Aproximadamente 50% de chance para cada resultado, como uma moeda girando no ar."

/-- Message returned when prob_0 > 0.99 (destructive interference). -/
def destructive_interference_msg : String :=
  "### Fenômeno Observado: Interferência Destrutiva! 🎯\n* **O que aconteceu?** Provavelmente você aplicou uma porta `H` duas vezes. A segunda desfez a superposição da primeira.\n* **O que o gráfico mostra?** O resultado é sempre 0. A \x27chance\x27 de medir 1 foi cancelada, provando que a computação quântica é sobre controle, não aleatoriedade."

/-- Message returned when prob_1 > 0.99 (deterministic |1⟩). -/
def deterministic_one_msg : String :=
  "### Estado Determinístico |1⟩! 🎯\nO resultado é sempre 1. Isso geralmente acontece após a aplicação de uma porta `X` (NOT) em um qubit no estado `|0⟩`."

/-- Message returned for any other one-qubit distribution (unequal superposition). -/
def unequal_superposition_msg : String :=
  "O qubit está em uma superposição com probabilidades desiguais, provavelmente criada por uma porta de rotação como a `RZ`."

/-- Message returned for the correlated two-qubit distribution (entanglement). -/
def entanglement_msg : String :=
  "### Fenômeno Observado: Emaranhamento! 🔗\n* **O que aconteceu?** Você criou um Estado de Bell (`H` + `CNOT`).\n* **O que o gráfico mostra?** Os resultados estão perfeitamente correlacionados: só aparecem `00` e `11`. Medir um qubit afeta instantaneamente o outro, não importa a distância."

/-- Generic message for any other two-qubit distribution. -/
def two_qubit_generic_msg : String :=
  "Os resultados mostram uma distribuição de probabilidades entre os quatro possíveis estados finais do seu circuito de 2 qubits."

/-- `interpret_results(counts, num_qubits)` from `circquantico.py`:
classifies a count distribution into one of the canned explanations. -/
def interpret_results (counts : Counts) (num_qubits : Nat) : String :=
  if counts.isEmpty then "" else
  let totalShots : ℚ := total_shots counts
  if num_qubits = 1 then
    let prob_0 : ℚ := (dictGet counts "0" : ℚ) / totalShots
    let prob_1 : ℚ := (dictGet counts "1" : ℚ) / totalShots
    if 0.4 < prob_0 ∧ prob_0 < 0.6 ∧ 0.4 < prob_1 ∧ prob_1 < 0.6 then
      superposition_msg
    else if prob_0 > 0.99 then
      destructive_interference_msg
    else if prob_1 > 0.99 then
      deterministic_one_msg
    else
      unequal_superposition_msg
  else if num_qubits = 2 then
    let prob_00 : ℚ := (dictGet counts "00" : ℚ) / totalShots
    let prob_11 : ℚ := (dictGet counts "11" : ℚ) / totalShots
    let prob_others : ℚ := 1 - (prob_00 + prob_11)
    if prob_00 > 0.4 ∧ prob_11 > 0.4 ∧ prob_others < 0.1 then
      entanglement_msg
    else
      two_qubit_generic_msg
  else ""

/-- The one-qubit classification rule exactly as the spec words it
(rule order: superposition, destructive interference, deterministic |1⟩,
unequal superposition), stated on the two probabilities. -/
def spec_classify_one_qubit (p0 p1 : ℚ) : String :=
  if 0.4 < p0 ∧ p0 < 0.6 ∧ 0.4 < p1 ∧ p1 < 0.6 then superposition_msg
  else if p0 > 0.99 then destructive_interference_msg
  else if p1 > 0.99 then deterministic_one_msg
  else unequal_superposition_msg

/-- The two-qubit classification rule exactly as the spec words it, stated on
the probabilities of "00" and "11". -/
def spec_classify_two_qubit (p00 p11 : ℚ) : String :=
  if p00 > 0.4 ∧ p11 > 0.4 ∧ 1 - (p00 + p11) < 0.1 then entanglement_msg
  else two_qubit_generic_msg

/-- A gate/instruction as recorded in the circuit's instruction list. RZ
stores the slider angle in degrees; the deg2rad conversion applied at the
boundary is a property of the external numeric library, not of the
bookkeeping modelled here. -/
inductive Gate where
  | h (target : Nat)
  | x (target : Nat)
  | z (target : Nat)
  | rz (thetaDeg : Int) (target : Nat)
  | cx (control : Nat) (target : Nat)
  | measure (qubit : Nat) (clbit : Nat)
  | measureAll
deriving DecidableEq

/-- The external library's quantum circuit: qubit count, classical-bit count
and the ordered instruction list. -/
structure QuantumCircuit where
  num_qubits : Nat
  num_clbits : Nat
  data : List Gate
deriving DecidableEq

/-- Errors raised by the external circuit library when a gate call is
malformed (an out-of-range qubit index, or a missing argument). -/
inductive CircuitError where
  | invalidQubitIndex
  | missingParameter
deriving DecidableEq

/-- Modelled from the spec: gate qubit (and classical-bit) indices must lie
within [0, qubitCount); the external circuit library checks them on every
gate call and raises otherwise — the spec's InvalidQubitIndex — appending
nothing. This validation lives in the external library, not in the
repository's own code. -/
def gateValid (g : Gate) (qc : QuantumCircuit) : Bool :=
  match g with
  | .h t => t < qc.num_qubits
  | .x t => t < qc.num_qubits
  | .z t => t < qc.num_qubits
  | .rz _ t => t < qc.num_qubits
  | .cx c t => c < qc.num_qubits && t < qc.num_qubits && c != t
  | .measure q c => q < qc.num_qubits && c < qc.num_clbits
  | .measureAll => true

/-- Modelled from the spec: a validated gate call appends the instruction to
the circuit's data list; an invalid index raises and leaves the circuit as
it was. -/
def QuantumCircuit.appendGate (qc : QuantumCircuit) (g : Gate) :
    Except CircuitError QuantumCircuit :=
  if gateValid g qc then .ok { qc with data := qc.data ++ [g] }
  else .error .invalidQubitIndex

/-- measure_all(inplace=True): adds one classical bit per qubit and a
measure-all instruction. -/
def QuantumCircuit.measure_all (qc : QuantumCircuit) : QuantumCircuit :=
  { qc with num_clbits := qc.num_clbits + qc.num_qubits,
            data := qc.data ++ [.measureAll] }

/-- Whether an instruction is a measurement (operation name "measure"). -/
def isMeasureOp (g : Gate) : Bool :=
  match g with
  | .measure _ _ => true
  | .measureAll => true
  | _ => false

/-- A statevector as returned by the backend: complex amplitudes as pairs of
rationals; its contents are opaque to the session bookkeeping. -/
abbrev Statevector := List (ℚ × ℚ)

/-- The Streamlit session state used by the app: selected qubit count, the
circuit, and the two cached results (counts and statevector, absent when the
Python value is None). -/
structure AppState where
  num_qubits : Nat
  circuit : QuantumCircuit
  counts : Option Counts
  statevector : Option Statevector
deriving DecidableEq

/-- force_reset_circuit: replaces the circuit by the empty circuit on the
session's qubit count (with as many classical bits) and clears both cached
results. -/
def force_reset_circuit (s : AppState) : AppState :=
  { s with circuit := { num_qubits := s.num_qubits, num_clbits := s.num_qubits, data := [] },
           counts := none, statevector := none }

/-- The app-state initializer (initialize_app_state in the source): resets
the circuit whenever its qubit count disagrees with the session's. The
session keys always exist in this embedding, so only the disagreement check
remains. -/
def init_app_state (s : AppState) : AppState :=
  if s.circuit.num_qubits ≠ s.num_qubits then force_reset_circuit s else s

/-- The qubit-count selectbox handler (setQubitCount in the spec): when the
selected count differs from the stored one, store it and re-initialize;
otherwise nothing happens. -/
def setQubitCount (s : AppState) (n : Nat) : AppState :=
  if n ≠ s.num_qubits then init_app_state { s with num_qubits := n } else s

/-- The options of the example-circuit selectbox. -/
inductive ExampleChoice where
  | nenhum
  | superposicao
  | emaranhamento
  | interferencia
deriving DecidableEq

/-- The "Carregar Circuito de Exemplo" button handler: clears both cached
results, then installs the selected preset circuit and its qubit count
("Nenhum" installs nothing). -/
def loadExample (s : AppState) (choice : ExampleChoice) : AppState :=
  let s0 : AppState := { s with counts := none, statevector := none }
  match choice with
  | .nenhum => s0
  | .superposicao =>
      { s0 with num_qubits := 1,
                circuit := { num_qubits := 1, num_clbits := 1, data := [.h 0, .measure 0 0] } }
  | .emaranhamento =>
      { s0 with num_qubits := 2,
                circuit := QuantumCircuit.measure_all
                  { num_qubits := 2, num_clbits := 2, data := [.h 0, .cx 0 1] } }
  | .interferencia =>
      { s0 with num_qubits := 1,
                circuit := { num_qubits := 1, num_clbits := 1, data := [.h 0, .h 0, .measure 0 0] } }

/-- The gate selectbox options of the manual builder. -/
inductive GateChoice where
  | H
  | X
  | Z
  | RZ
  | CNOT
  | medirQubit
  | medirTodos
deriving DecidableEq

/-- The params dictionary assembled by the sidebar widgets. -/
structure OpParams where
  gate : GateChoice
  target : Option Nat
  control : Option Nat
  thetaDeg : Int
deriving DecidableEq

/-- The gate-dispatch part of the "Adicionar Operação" handler, mirroring its
if/elif chain: CNOT with a missing target silently appends nothing; a gate
call on a missing argument raises, as the library does on None. -/
def applyGateStep (qc : QuantumCircuit) (p : OpParams) :
    Except CircuitError QuantumCircuit :=
  match p.gate with
  | .H => match p.target with
          | some t => qc.appendGate (.h t)
          | none => .error .missingParameter
  | .X => match p.target with
          | some t => qc.appendGate (.x t)
          | none => .error .missingParameter
  | .Z => match p.target with
          | some t => qc.appendGate (.z t)
          | none => .error .missingParameter
  | .RZ => match p.target with
           | some t => qc.appendGate (.rz p.thetaDeg t)
           | none => .error .missingParameter
  | .CNOT => match p.target with
             | none => .ok qc
             | some t => match p.control with
                         | some c => qc.appendGate (.cx c t)
                         | none => .error .missingParameter
  | .medirQubit => match p.target with
                   | some t => qc.appendGate (.measure t t)
                   | none => .error .missingParameter
  | .medirTodos => .ok qc.measure_all

/-- applyOperation (the "Adicionar Operação" button handler): runs the gate
dispatch on the session circuit, then clears both cached results; an
exception aborts the handler before anything is stored. -/
def applyOperation (s : AppState) (p : OpParams) : Except CircuitError AppState :=
  match applyGateStep s.circuit p with
  | .ok qc => .ok { s with circuit := qc, counts := none, statevector := none }
  | .error e => .error e

/-- The session after an applyOperation click: on success the updated state
is stored; an exception leaves the session exactly as it was. -/
def applyOperationSession (s : AppState) (p : OpParams) : AppState :=
  match applyOperation s p with
  | .ok s' => s'
  | .error _ => s

/-- run_measurement_simulation: warns and returns None when the circuit has
no classical bits or no measure instruction; otherwise runs the external
shot-sampling backend (passed in as an oracle) and returns its counts, or
None when the backend raises. The second component is the warning or error
message shown to the user, if any. -/
def run_measurement_simulation (backend : QuantumCircuit → Nat → Except String Counts)
    (qc : QuantumCircuit) (shots : Nat) : Option Counts × Option String :=
  if qc.num_clbits = 0 ∨ ¬ qc.data.any isMeasureOp then
    (none, some "Para ver as contagens, adicione operações de \x27Medir\x27 ao seu circuito.")
  else
    match backend qc shots with
    | .ok counts => (some counts, none)
    | .error e => (none, some ("Erro na Simulação de Medição: " ++ e))

/-- The measure-stripping done on the copied circuit before the statevector
run. -/
def stripMeasures (qc : QuantumCircuit) : QuantumCircuit :=
  { qc with data := qc.data.filter (fun g => ! isMeasureOp g) }

/-- calculate_statevector: strips the measure instructions from a copy of the
circuit, then asks the external statevector backend (an oracle); when it
raises, an error message is shown and None is returned. -/
def calculate_statevector (backend : QuantumCircuit → Except String Statevector)
    (qc : QuantumCircuit) : Option Statevector × Option String :=
  match backend (stripMeasures qc) with
  | .ok sv => (some sv, none)
  | .error e => (none, some ("Erro no Cálculo do Vetor de Estado: " ++ e))

/-- The "Executar Medições" button: stores the (possibly absent) counts of a
1024-shot run into the session. -/
def runMeasurementsClick (backend : QuantumCircuit → Nat → Except String Counts)
    (s : AppState) : AppState :=
  { s with counts := (run_measurement_simulation backend s.circuit 1024).1 }

/-- The "Calcular Vetor de Estado" button: stores the (possibly absent)
statevector into the session. -/
def calcStatevectorClick (backend : QuantumCircuit → Except String Statevector)
    (s : AppState) : AppState :=
  { s with statevector := (calculate_statevector backend s.circuit).1 }

/-- A concrete session in the initial configuration with a cached counts
dictionary present, used to exercise the state-machine theorems. -/
def demoState : AppState :=
  { num_qubits := 1,
    circuit := { num_qubits := 1, num_clbits := 1, data := [] },
    counts := some [("0", 1024)],
    statevector := none }

/-- Params for a valid H gate on qubit 0. -/
def demoHParams : OpParams :=
  { gate := .H, target := some 0, control := none, thetaDeg := 0 }

/-- Params for an H gate on qubit index 5 (out of range on one qubit). -/
def demoBadParams : OpParams :=
  { gate := .H, target := some 5, control := none, thetaDeg := 0 }

/-- The session obtained from `demoState` by a successful H(0). -/
def demoAfterH : AppState :=
  { num_qubits := 1,
    circuit := { num_qubits := 1, num_clbits := 1, data := [.h 0] },
    counts := none,
    statevector := none }

/-- A shot-sampling backend that always raises. -/
def demoFailCountsBackend : QuantumCircuit → Nat → Except String Counts :=
  fun _ _ => .error "falha"

/-- A statevector backend that always raises. -/
def demoFailSvBackend : QuantumCircuit → Except String Statevector :=
  fun _ => .error "falha"

/-- On a non-empty counts dictionary, the one-qubit branch of
`interpret_results` is the spec's classification rule applied to the two
probabilities. -/
lemma interpret_one_rule (counts : Counts) (h : counts ≠ []) :
    interpret_results counts 1 =
      spec_classify_one_qubit ((dictGet counts "0" : ℚ) / (total_shots counts : ℚ))
        ((dictGet counts "1" : ℚ) / (total_shots counts : ℚ)) := by
  cases counts with
  | nil => exact absurd rfl h
  | cons a l => rfl

/-- On a non-empty counts dictionary, the two-qubit branch of
`interpret_results` is the spec's classification rule applied to the
probabilities of "00" and "11". -/
lemma interpret_two_rule (counts : Counts) (h : counts ≠ []) :
    interpret_results counts 2 =
      spec_classify_two_qubit ((dictGet counts "00" : ℚ) / (total_shots counts : ℚ))
        ((dictGet counts "11" : ℚ) / (total_shots counts : ℚ)) := by
  cases counts with
  | nil => exact absurd rfl h
  | cons a l => rfl

/-- C1: for qubitCount = 1 on a non-empty counts dictionary,
`interpret_results` classifies by the spec's rule order on
p0 = counts["0"]/total and p1 = counts["1"]/total (superposition, then
p0 > 0.99 destructive interference, then p1 > 0.99 deterministic |1⟩, else
unequal superposition); in particular p0 and p1 both in (0.4, 0.6) always
yields the superposition message, and {"0": 1024} yields the
destructive-interference message. -/
theorem interpret_results_one_qubit_spec (counts : Counts) (h : counts ≠ []) :
    interpret_results counts 1 =
      spec_classify_one_qubit ((dictGet counts "0" : ℚ) / (total_shots counts : ℚ))
        ((dictGet counts "1" : ℚ) / (total_shots counts : ℚ))
    ∧ ((0.4 < (dictGet counts "0" : ℚ) / (total_shots counts : ℚ) ∧
        (dictGet counts "0" : ℚ) / (total_shots counts : ℚ) < 0.6 ∧
        0.4 < (dictGet counts "1" : ℚ) / (total_shots counts : ℚ) ∧
        (dictGet counts "1" : ℚ) / (total_shots counts : ℚ) < 0.6) →
        interpret_results counts 1 = superposition_msg)
    ∧ interpret_results [("0", 1024)] 1 = destructive_interference_msg := by
  refine ⟨interpret_one_rule counts h, fun hc => ?_, ?_⟩
  · rw [interpret_one_rule counts h]
    unfold spec_classify_one_qubit
    rw [if_pos hc]
  · rw [interpret_one_rule _ (by decide)]
    have h0 : dictGet [("0", 1024)] "0" = 1024 := rfl
    have h1 : dictGet [("0", 1024)] "1" = 0 := rfl
    have ht : total_shots [("0", 1024)] = 1024 := rfl
    rw [h0, h1, ht]
    norm_num [spec_classify_one_qubit]

/-- C1 witness: the one-qubit rule instantiated at the concrete dictionary
{"0": 1024}. -/
theorem interpret_results_one_qubit_spec_witness :
    interpret_results [("0", 1024)] 1 =
      spec_classify_one_qubit ((dictGet [("0", 1024)] "0" : ℚ) / (total_shots [("0", 1024)] : ℚ))
        ((dictGet [("0", 1024)] "1" : ℚ) / (total_shots [("0", 1024)] : ℚ))
    ∧ ((0.4 < (dictGet [("0", 1024)] "0" : ℚ) / (total_shots [("0", 1024)] : ℚ) ∧
        (dictGet [("0", 1024)] "0" : ℚ) / (total_shots [("0", 1024)] : ℚ) < 0.6 ∧
        0.4 < (dictGet [("0", 1024)] "1" : ℚ) / (total_shots [("0", 1024)] : ℚ) ∧
        (dictGet [("0", 1024)] "1" : ℚ) / (total_shots [("0", 1024)] : ℚ) < 0.6) →
        interpret_results [("0", 1024)] 1 = superposition_msg)
    ∧ interpret_results [("0", 1024)] 1 = destructive_interference_msg :=
  interpret_results_one_qubit_spec [("0", 1024)] (by decide)

/-- C2: for qubitCount = 2 on a non-empty counts dictionary,
`interpret_results` returns the entanglement message exactly when
p00 > 0.4, p11 > 0.4 and 1 - (p00 + p11) < 0.1, and the generic
four-outcome message otherwise; in particular {"00":500,"11":500} yields the
entanglement message and {"00":300,"01":300,"10":200,"11":200} the generic
message. -/
theorem interpret_results_two_qubit_spec (counts : Counts) (h : counts ≠ []) :
    (interpret_results counts 2 = entanglement_msg ↔
      ((dictGet counts "00" : ℚ) / (total_shots counts : ℚ) > 0.4 ∧
       (dictGet counts "11" : ℚ) / (total_shots counts : ℚ) > 0.4 ∧
       1 - ((dictGet counts "00" : ℚ) / (total_shots counts : ℚ) +
            (dictGet counts "11" : ℚ) / (total_shots counts : ℚ)) < 0.1))
    ∧ (¬ ((dictGet counts "00" : ℚ) / (total_shots counts : ℚ) > 0.4 ∧
          (dictGet counts "11" : ℚ) / (total_shots counts : ℚ) > 0.4 ∧
          1 - ((dictGet counts "00" : ℚ) / (total_shots counts : ℚ) +
               (dictGet counts "11" : ℚ) / (total_shots counts : ℚ)) < 0.1) →
        interpret_results counts 2 = two_qubit_generic_msg)
    ∧ interpret_results [("00", 500), ("11", 500)] 2 = entanglement_msg
    ∧ interpret_results [("00", 300), ("01", 300), ("10", 200), ("11", 200)] 2 =
        two_qubit_generic_msg := by
  have hr := interpret_two_rule counts h
  refine ⟨?_, fun hc => ?_, ?_, ?_⟩
  · rw [hr]
    unfold spec_classify_two_qubit
    constructor
    · intro he
      by_contra hcond
      rw [if_neg hcond] at he
      exact absurd he (by decide)
    · intro hcond
      rw [if_pos hcond]
  · rw [hr]
    unfold spec_classify_two_qubit
    rw [if_neg hc]
  · rw [interpret_two_rule _ (by decide)]
    have h00 : dictGet [("00", 500), ("11", 500)] "00" = 500 := rfl
    have h11 : dictGet [("00", 500), ("11", 500)] "11" = 500 := rfl
    have ht : total_shots [("00", 500), ("11", 500)] = 1000 := rfl
    rw [h00, h11, ht]
    norm_num [spec_classify_two_qubit]
  · rw [interpret_two_rule _ (by decide)]
    have h00 : dictGet [("00", 300), ("01", 300), ("10", 200), ("11", 200)] "00" = 300 := rfl
    have h11 : dictGet [("00", 300), ("01", 300), ("10", 200), ("11", 200)] "11" = 200 := rfl
    have ht : total_shots [("00", 300), ("01", 300), ("10", 200), ("11", 200)] = 1000 := rfl
    rw [h00, h11, ht]
    norm_num [spec_classify_two_qubit]

/-- C2 witness: the two-qubit rule instantiated at the concrete dictionary
{"00": 500, "11": 500}. -/
theorem interpret_results_two_qubit_spec_witness :
    (interpret_results [("00", 500), ("11", 500)] 2 = entanglement_msg ↔
      ((dictGet [("00", 500), ("11", 500)] "00" : ℚ) / (total_shots [("00", 500), ("11", 500)] : ℚ) > 0.4 ∧
       (dictGet [("00", 500), ("11", 500)] "11" : ℚ) / (total_shots [("00", 500), ("11", 500)] : ℚ) > 0.4 ∧
       1 - ((dictGet [("00", 500), ("11", 500)] "00" : ℚ) / (total_shots [("00", 500), ("11", 500)] : ℚ) +
            (dictGet [("00", 500), ("11", 500)] "11" : ℚ) / (total_shots [("00", 500), ("11", 500)] : ℚ)) < 0.1))
    ∧ (¬ ((dictGet [("00", 500), ("11", 500)] "00" : ℚ) / (total_shots [("00", 500), ("11", 500)] : ℚ) > 0.4 ∧
          (dictGet [("00", 500), ("11", 500)] "11" : ℚ) / (total_shots [("00", 500), ("11", 500)] : ℚ) > 0.4 ∧
          1 - ((dictGet [("00", 500), ("11", 500)] "00" : ℚ) / (total_shots [("00", 500), ("11", 500)] : ℚ) +
               (dictGet [("00", 500), ("11", 500)] "11" : ℚ) / (total_shots [("00", 500), ("11", 500)] : ℚ)) < 0.1) →
        interpret_results [("00", 500), ("11", 500)] 2 = two_qubit_generic_msg)
    ∧ interpret_results [("00", 500), ("11", 500)] 2 = entanglement_msg
    ∧ interpret_results [("00", 300), ("01", 300), ("10", 200), ("11", 200)] 2 =
        two_qubit_generic_msg :=
  interpret_results_two_qubit_spec [("00", 500), ("11", 500)] (by decide)

/-- C7: for any qubit count other than 1 and 2, `interpret_results` returns
the empty message for every counts dictionary. -/
theorem interpret_results_other_qubit_count (counts : Counts) (n : Nat)
    (h1 : n ≠ 1) (h2 : n ≠ 2) : interpret_results counts n = "" := by
  cases counts with
  | nil => rfl
  | cons a l =>
      unfold interpret_results
      simp [h1, h2]

/-- C7 witness: three qubits with a concrete dictionary yield the empty
message. -/
theorem interpret_results_other_qubit_count_witness :
    (3 : Nat) ≠ 1 ∧ (3 : Nat) ≠ 2 ∧ interpret_results [("000", 1024)] 3 = "" :=
  ⟨by decide, by decide,
    interpret_results_other_qubit_count [("000", 1024)] 3 (by decide) (by decide)⟩

/-- C9 counterexample: the dictionary {"0": 0} is non-empty (it passes the
emptiness guard) yet its total shot count is 0, so non-emptiness alone does
not make the divisor strictly positive. -/
theorem total_shots_nonempty_counterexample :
    ([("0", 0)] : Counts) ≠ [] ∧ ¬ 0 < total_shots [("0", 0)] := by decide

/-- C9 (amended): for every non-empty counts dictionary all of whose
frequencies are strictly positive — as the shot-sampling backend produces —
the total shot count used as divisor is strictly positive. -/
theorem total_shots_pos_of_pos_values (counts : Counts) (h : counts ≠ [])
    (hpos : ∀ kv ∈ counts, 0 < kv.2) : 0 < total_shots counts := by
  cases counts with
  | nil => exact absurd rfl h
  | cons a l =>
      have ha : 0 < a.2 := hpos a (List.mem_cons_self a l)
      unfold total_shots
      simp only [List.map_cons, List.sum_cons]
      exact Nat.lt_of_lt_of_le ha (Nat.le_add_right _ _)

/-- C9 witness: a concrete positive dictionary has positive total. -/
theorem total_shots_pos_of_pos_values_witness :
    ([("0", 1024)] : Counts) ≠ [] ∧ 0 < total_shots [("0", 1024)] :=
  ⟨by decide, total_shots_pos_of_pos_values [("0", 1024)] (by decide) (by decide)⟩

/-- C10: the empty counts dictionary short-circuits the guard and yields the
empty message for every qubit count. -/
theorem interpret_results_empty_counts (n : Nat) : interpret_results [] n = "" := rfl

/-- A validated gate append never changes the circuit's qubit count. -/
lemma appendGate_num_qubits (qc : QuantumCircuit) (g : Gate) (qc' : QuantumCircuit)
    (h : qc.appendGate g = .ok qc') : qc'.num_qubits = qc.num_qubits := by
  unfold QuantumCircuit.appendGate at h
  by_cases hv : gateValid g qc
  · rw [if_pos hv] at h
    cases h
    rfl
  · rw [if_neg hv] at h
    cases h

/-- The gate dispatch of the add-operation handler never changes the
circuit's qubit count. -/
lemma applyGateStep_num_qubits (qc : QuantumCircuit) (p : OpParams) (qc' : QuantumCircuit)
    (h : applyGateStep qc p = .ok qc') : qc'.num_qubits = qc.num_qubits := by
  obtain ⟨g, t, c, θ⟩ := p
  cases g <;> cases t <;>
    simp only [applyGateStep] at h
  case CNOT.none =>
    cases h
    rfl
  case medirTodos.none =>
    cases h
    rfl
  case medirTodos.some =>
    cases h
    rfl
  case CNOT.some t =>
    cases c with
    | none => cases h
    | some cc => exact appendGate_num_qubits _ _ _ h
  all_goals first
    | cases h
    | exact appendGate_num_qubits _ _ _ h

/-- The consistency invariant (the stored circuit's qubit count equals the
session's qubit count) is preserved by every session operation. -/
lemma consistency_preserved (s : AppState) (hc : s.circuit.num_qubits = s.num_qubits)
    (p : OpParams) (choice : ExampleChoice) (n : Nat) :
    (force_reset_circuit s).circuit.num_qubits = (force_reset_circuit s).num_qubits ∧
    (loadExample s choice).circuit.num_qubits = (loadExample s choice).num_qubits ∧
    (applyOperationSession s p).circuit.num_qubits = (applyOperationSession s p).num_qubits ∧
    (setQubitCount s n).circuit.num_qubits = (setQubitCount s n).num_qubits := by
  refine ⟨rfl, ?_, ?_, ?_⟩
  · cases choice
    · exact hc
    · rfl
    · rfl
    · rfl
  · unfold applyOperationSession
    cases hop : applyOperation s p with
    | error e => exact hc
    | ok s' =>
        unfold applyOperation at hop
        cases hstep : applyGateStep s.circuit p with
        | error e => rw [hstep] at hop; cases hop
        | ok qc =>
            rw [hstep] at hop
            cases hop
            simpa using (applyGateStep_num_qubits _ _ _ hstep).trans hc
  · unfold setQubitCount init_app_state
    by_cases hne : n ≠ s.num_qubits
    · rw [if_pos hne]
      by_cases hqc : ({ s with num_qubits := n } : AppState).circuit.num_qubits ≠
          ({ s with num_qubits := n } : AppState).num_qubits
      · rw [if_pos hqc]
        rfl
      · rw [if_neg hqc]
        simpa using not_ne_iff.mp hqc
    · rw [if_neg hne]
      exact hc

/-- C3: every circuit-mutating session operation leaves the cached ResultSet
absent: a successful applyOperation, loading any example circuit, a reset,
and a qubit-count change on a consistent session all clear both the cached
counts and the cached statevector. -/
theorem cache_invalidation (s s' : AppState) (p : OpParams) (choice : ExampleChoice) (n : Nat) :
    (applyOperation s p = .ok s' → s'.counts = none ∧ s'.statevector = none) ∧
    ((loadExample s choice).counts = none ∧ (loadExample s choice).statevector = none) ∧
    ((force_reset_circuit s).counts = none ∧ (force_reset_circuit s).statevector = none) ∧
    (s.circuit.num_qubits = s.num_qubits → n ≠ s.num_qubits →
      (setQubitCount s n).counts = none ∧ (setQubitCount s n).statevector = none) := by
  refine ⟨?_, ?_, ⟨rfl, rfl⟩, ?_⟩
  · intro hop
    unfold applyOperation at hop
    cases hstep : applyGateStep s.circuit p with
    | error e => rw [hstep] at hop; cases hop
    | ok qc =>
        rw [hstep] at hop
        cases hop
        exact ⟨rfl, rfl⟩
  · cases choice
    · exact ⟨rfl, rfl⟩
    · exact ⟨rfl, rfl⟩
    · exact ⟨rfl, rfl⟩
    · exact ⟨rfl, rfl⟩
  · intro hcons hne
    unfold setQubitCount init_app_state
    rw [if_pos hne, if_pos]
    · exact ⟨rfl, rfl⟩
    · show s.circuit.num_qubits ≠ n
      rw [hcons]
      exact Ne.symm hne

/-- C3 witness: the four mutating operations on the demo session (which has a
cached counts dictionary) all leave both caches absent. -/
theorem cache_invalidation_witness :
    (demoAfterH.counts = none ∧ demoAfterH.statevector = none) ∧
    ((loadExample demoState .emaranhamento).counts = none ∧
     (loadExample demoState .emaranhamento).statevector = none) ∧
    ((force_reset_circuit demoState).counts = none ∧
     (force_reset_circuit demoState).statevector = none) ∧
    ((setQubitCount demoState 2).counts = none ∧
     (setQubitCount demoState 2).statevector = none) :=
  have h := cache_invalidation demoState demoAfterH demoHParams .emaranhamento 2
  ⟨h.1 rfl, h.2.1, h.2.2.1, h.2.2.2 rfl (by decide)⟩

/-- C4: an applyOperation whose target (or, for CNOT, control) qubit index
lies outside [0, qubitCount) raises InvalidQubitIndex, and the session — in
particular the circuit's operation sequence — is left unmutated. -/
theorem applyOperation_invalid_index (s : AppState) (p : OpParams) :
    ((∃ t, p.target = some t ∧ s.circuit.num_qubits ≤ t ∧
        (p.gate = .H ∨ p.gate = .X ∨ p.gate = .Z ∨ p.gate = .RZ ∨ p.gate = .medirQubit ∨
         (p.gate = .CNOT ∧ ∃ c, p.control = some c)))
     ∨ (∃ c t, p.gate = .CNOT ∧ p.control = some c ∧ p.target = some t ∧
         s.circuit.num_qubits ≤ c)) →
    applyOperation s p = .error CircuitError.invalidQubitIndex ∧
    applyOperationSession s p = s := by
  intro hbad
  have hstep : applyGateStep s.circuit p = .error CircuitError.invalidQubitIndex := by
    rcases hbad with ⟨t, ht, hle, hg⟩ | ⟨c, t, hg, hcon, ht, hle⟩
    · rcases hg with hg | hg | hg | hg | hg | ⟨hg, c, hcon⟩
      · have hv : gateValid (.h t) s.circuit = false := by
          simp [gateValid, Nat.not_lt.mpr hle]
        simp [applyGateStep, hg, ht, QuantumCircuit.appendGate, hv]
      · have hv : gateValid (.x t) s.circuit = false := by
          simp [gateValid, Nat.not_lt.mpr hle]
        simp [applyGateStep, hg, ht, QuantumCircuit.appendGate, hv]
      · have hv : gateValid (.z t) s.circuit = false := by
          simp [gateValid, Nat.not_lt.mpr hle]
        simp [applyGateStep, hg, ht, QuantumCircuit.appendGate, hv]
      · have hv : gateValid (.rz p.thetaDeg t) s.circuit = false := by
          simp [gateValid, Nat.not_lt.mpr hle]
        simp [applyGateStep, hg, ht, QuantumCircuit.appendGate, hv]
      · have hv : gateValid (.measure t t) s.circuit = false := by
          simp [gateValid, Nat.not_lt.mpr hle]
        simp [applyGateStep, hg, ht, QuantumCircuit.appendGate, hv]
      · have hv : gateValid (.cx c t) s.circuit = false := by
          simp [gateValid, Nat.not_lt.mpr hle]
        simp [applyGateStep, hg, ht, hcon, QuantumCircuit.appendGate, hv]
    · have hv : gateValid (.cx c t) s.circuit = false := by
        simp [gateValid, Nat.not_lt.mpr hle]
      simp [applyGateStep, hg, ht, hcon, QuantumCircuit.appendGate, hv]
  constructor
  · unfold applyOperation
    rw [hstep]
  · unfold applyOperationSession applyOperation
    rw [hstep]

/-- C4 witness: adding H on qubit index 5 to the one-qubit demo session
raises and changes nothing. -/
theorem applyOperation_invalid_index_witness :
    applyOperation demoState demoBadParams = .error CircuitError.invalidQubitIndex ∧
    applyOperationSession demoState demoBadParams = demoState :=
  applyOperation_invalid_index demoState demoBadParams
    (Or.inl ⟨5, rfl, by decide, Or.inl rfl⟩)

/-- C5: for every session state, force_reset_circuit yields a circuit with
exactly the session's qubit count and zero operations and leaves both cached
results absent; it is a total function with no error conditions. -/
theorem force_reset_circuit_spec (s : AppState) :
    (force_reset_circuit s).circuit.num_qubits = s.num_qubits ∧
    (force_reset_circuit s).circuit.data = [] ∧
    (force_reset_circuit s).counts = none ∧
    (force_reset_circuit s).statevector = none :=
  ⟨rfl, rfl, rfl, rfl⟩

/-- C6: on a session whose circuit agrees with the stored qubit count (an
invariant preserved by every operation, see `consistency_preserved`),
selecting a different qubit count n performs exactly the reset on n — empty
n-qubit circuit, both caches cleared — while selecting the current count
leaves the session untouched. -/
theorem setQubitCount_spec (s : AppState) (n : Nat)
    (hc : s.circuit.num_qubits = s.num_qubits) :
    (n ≠ s.num_qubits →
      setQubitCount s n = force_reset_circuit { s with num_qubits := n } ∧
      (setQubitCount s n).circuit.num_qubits = n ∧
      (setQubitCount s n).circuit.data = [] ∧
      (setQubitCount s n).counts = none ∧
      (setQubitCount s n).statevector = none) ∧
    (n = s.num_qubits → setQubitCount s n = s) := by
  constructor
  · intro hne
    have h1 : setQubitCount s n = force_reset_circuit { s with num_qubits := n } := by
      unfold setQubitCount init_app_state
      rw [if_pos hne, if_pos]
      show s.circuit.num_qubits ≠ n
      rw [hc]
      exact Ne.symm hne
    refine ⟨h1, ?_, ?_, ?_, ?_⟩ <;> rw [h1] <;> rfl
  · intro heq
    unfold setQubitCount
    rw [if_neg (by simp [heq])]

/-- C6 witness: on the consistent one-qubit demo session, selecting two
qubits resets and selecting one qubit would leave the session unchanged. -/
theorem setQubitCount_spec_witness :
    ((2 : Nat) ≠ demoState.num_qubits →
      setQubitCount demoState 2 = force_reset_circuit { demoState with num_qubits := 2 } ∧
      (setQubitCount demoState 2).circuit.num_qubits = 2 ∧
      (setQubitCount demoState 2).circuit.data = [] ∧
      (setQubitCount demoState 2).counts = none ∧
      (setQubitCount demoState 2).statevector = none) ∧
    ((2 : Nat) = demoState.num_qubits → setQubitCount demoState 2 = demoState) :=
  setQubitCount_spec demoState 2 rfl

/-- C8: when the external backend raises during a measurement run or a
statevector calculation, the wrapper catches it locally, a message is shown,
the corresponding cache entry ends up absent, and the rest of the session —
circuit, qubit count and the other cached result — is unchanged. -/
theorem simulation_failure_spec (s : AppState)
    (mBackend : QuantumCircuit → Nat → Except String Counts)
    (svBackend : QuantumCircuit → Except String Statevector)
    (e1 e2 : String)
    (h1 : mBackend s.circuit 1024 = .error e1)
    (h2 : svBackend (stripMeasures s.circuit) = .error e2) :
    ((runMeasurementsClick mBackend s).counts = none ∧
     (runMeasurementsClick mBackend s).circuit = s.circuit ∧
     (runMeasurementsClick mBackend s).num_qubits = s.num_qubits ∧
     (runMeasurementsClick mBackend s).statevector = s.statevector ∧
     (run_measurement_simulation mBackend s.circuit 1024).2.isSome = true) ∧
    ((calcStatevectorClick svBackend s).statevector = none ∧
     (calcStatevectorClick svBackend s).circuit = s.circuit ∧
     (calcStatevectorClick svBackend s).num_qubits = s.num_qubits ∧
     (calcStatevectorClick svBackend s).counts = s.counts ∧
     (calculate_statevector svBackend s.circuit).2 =
       some ("Erro no Cálculo do Vetor de Estado: " ++ e2)) := by
  have hrun : run_measurement_simulation mBackend s.circuit 1024 =
      (none, some ("Erro na Simulação de Medição: " ++ e1)) ∨
      run_measurement_simulation mBackend s.circuit 1024 =
      (none, some "Para ver as contagens, adicione operações de \x27Medir\x27 ao seu circuito.") := by
    unfold run_measurement_simulation
    by_cases hg : s.circuit.num_clbits = 0 ∨ ¬ s.circuit.data.any isMeasureOp
    · right
      rw [if_pos hg]
    · left
      rw [if_neg hg, h1]
  have hsv : calculate_statevector svBackend s.circuit =
      (none, some ("Erro no Cálculo do Vetor de Estado: " ++ e2)) := by
    unfold calculate_statevector
    rw [h2]
  constructor
  · refine ⟨?_, rfl, rfl, rfl, ?_⟩
    · show (run_measurement_simulation mBackend s.circuit 1024).1 = none
      rcases hrun with hrun | hrun <;> rw [hrun]
    · rcases hrun with hrun | hrun <;> rw [hrun] <;> rfl
  · refine ⟨?_, rfl, rfl, rfl, ?_⟩
    · show (calculate_statevector svBackend s.circuit).1 = none
      rw [hsv]
    · rw [hsv]

/-- C8 witness: both always-raising backends on the demo session leave both
caches absent and the session otherwise unchanged. -/
theorem simulation_failure_spec_witness :
    ((runMeasurementsClick demoFailCountsBackend demoState).counts = none ∧
     (runMeasurementsClick demoFailCountsBackend demoState).circuit = demoState.circuit ∧
     (runMeasurementsClick demoFailCountsBackend demoState).num_qubits = demoState.num_qubits ∧
     (runMeasurementsClick demoFailCountsBackend demoState).statevector = demoState.statevector ∧
     (run_measurement_simulation demoFailCountsBackend demoState.circuit 1024).2.isSome = true) ∧
    ((calcStatevectorClick demoFailSvBackend demoState).statevector = none ∧
     (calcStatevectorClick demoFailSvBackend demoState).circuit = demoState.circuit ∧
     (calcStatevectorClick demoFailSvBackend demoState).num_qubits = demoState.num_qubits ∧
     (calcStatevectorClick demoFailSvBackend demoState).counts = demoState.counts ∧
     (calculate_statevector demoFailSvBackend demoState.circuit).2 =
       some ("Erro no Cálculo do Vetor de Estado: " ++ "falha")) :=
  simulation_failure_spec demoState demoFailCountsBackend demoFailSvBackend "falha" "falha" rfl rfl
